import Mathlib

/-!
Verification of the training script `BERT/train.py` of ETRI-Bert-Mfcc.

The script is pure orchestration: a top-level entry block checks the modality
flags, saves the config, and runs `main` for each session id in
`range(1, 41)` using the table `NUM_CLASS_DICT`; `main` builds the two data
loaders, the model, the warmup schedule and the optimizer, runs
`epochs` rounds of `train` followed by `evaluate`, and finally saves one
checkpoint; `train` iterates the batches doing backward, gradient clipping,
optimizer step, scheduler step.

We embed the control flow shallowly as event traces.  External library calls
(`get_data_loader`, `MultimodalTransformer`, `get_optimizer_and_scheduler`,
`evaluate`, `torch.save`) are recorded as events; the values the environment
returns (number of train batches, per-epoch evaluation loss and f1) are
parameters of the embedding.  Python exceptions (`ValueError` on both
modality flags, the `NameError` on `model_path` when the epoch loop runs zero
times, `KeyError` on a missing dict entry) are an `Option Err` result.
-/

namespace TrainPy

/-- The exceptions the script can raise in the embedded fragment. -/
inductive Err where
  | valueError
  | nameError
  | keyError
  deriving DecidableEq, Repr

/-- Observable events of a run of the script, in program order. -/
inductive Event where
  | setSeed (n : Nat)
  | saveConfig
  | buildLoader (split : String)
  | buildModel (sess nClasses : Nat)
  | computeSteps (total warmup : Int)
  | buildOptSched (sess : Nat)
  | trainEpoch (sess epoch : Nat)
  | evalEpoch (sess epoch : Nat) (labelName : String)
  | saveCheckpoint (sess : Nat) (file : String)
  deriving DecidableEq, Repr

/-- The command-line arguments the embedded fragment reads. -/
structure Args where
  only_audio : Bool
  only_text : Bool
  seed : Nat
  epochs : Nat
  clip : ℚ
  warmup_percent : ℚ
  logging_steps : Nat
  save_path : String

/-- Python `round` on a real value: round half to even.  The script applies
it at `total_steps = round(len(trn_loader) * args.epochs)` and
`warmup_steps = round(args.total_steps * args.warmup_percent)`; we model the
real arguments as rationals. -/
def roundHalfEven (q : ℚ) : ℤ :=
  let f := ⌊q⌋
  if q - f < 1/2 then f
  else if 1/2 < q - f then f + 1
  else if f % 2 = 0 then f else f + 1

/-- `args.total_steps = round(len(trn_loader) * args.epochs)` (train.py:88). -/
def totalStepsOf (nBatches : Nat) (args : Args) : ℤ :=
  roundHalfEven ((nBatches : ℚ) * (args.epochs : ℚ))

/-- `args.warmup_steps = round(args.total_steps * args.warmup_percent)`
(train.py:89). -/
def warmupStepsOf (nBatches : Nat) (args : Args) : ℤ :=
  roundHalfEven ((totalStepsOf nBatches args : ℚ) * args.warmup_percent)

/-- `f'{sess:02}'`: decimal, zero-padded to width 2. -/
def pad2 (n : Nat) : String :=
  if n < 10 then "0" ++ toString n else toString n

/-- The four digits after the decimal point of `"{:.4f}".format`, most
significant first, zero-padded. -/
def fracDigits4 (m : Nat) : List Char :=
  [Nat.digitChar (m / 1000 % 10), Nat.digitChar (m / 100 % 10),
   Nat.digitChar (m / 10 % 10), Nat.digitChar (m % 10)]

/-- `"{:.4f}".format(q)`: the value rounded (half to even) to four decimal
places, with exactly four digits after the point. -/
def fmt4 (q : ℚ) : String :=
  let n := roundHalfEven (q * 10000)
  let sign := if n < 0 then "-" else ""
  sign ++ toString (n.natAbs / 10000) ++ "." ++ String.mk (fracDigits4 (n.natAbs % 10000))

/-- `os.path.join` for the two-argument POSIX case the script uses. -/
def osPathJoin (a b : String) : String :=
  if a = "" then b else if a.endsWith "/" then a ++ b else a ++ "/" ++ b

/-- `model_name = "epoch{}-loss{:.4f}-f1{:.4f}.".format(epoch, loss, f1)`
(train.py:105). -/
def modelNameOf (epoch : Nat) (loss f1 : ℚ) : String :=
  "epoch" ++ toString epoch ++ "-loss" ++ fmt4 loss ++ "-f1" ++ fmt4 f1 ++ "."

/-- The checkpoint file written at train.py:107 for a session, given the
evaluation results of the final epoch. -/
def checkpointFile (args : Args) (sess : Nat) (evalFn : Nat → ℚ × ℚ) : String :=
  osPathJoin args.save_path
      (modelNameOf args.epochs (evalFn args.epochs).1 (evalFn args.epochs).2)
    ++ "Session" ++ toString sess ++ ".pt"

/-- One iteration of the epoch loop of `main` (train.py:98-106): run
training, run evaluation, and recompute `model_path`.  `evalFn e` is the
`(loss, f1)` pair `evaluate` returns at epoch `e`. -/
def epochBody (sess : Nat) (labelName savePath : String) (evalFn : Nat → ℚ × ℚ)
    (epoch : Nat) : List Event × String :=
  let r := evalFn epoch
  ([Event.trainEpoch sess epoch, Event.evalEpoch sess epoch labelName],
   osPathJoin savePath (modelNameOf epoch r.1 r.2))

/-- The epoch loop of `main` (train.py:98-106): the fold carries the event
trace and the current value of the `model_path` variable (unassigned at
entry). -/
def epochLoop (epochs : Nat) (sess : Nat) (labelName savePath : String)
    (evalFn : Nat → ℚ × ℚ) : List Event × Option String :=
  (List.range epochs).foldl
    (fun (acc : List Event × Option String) i =>
      let b := epochBody sess labelName savePath evalFn (i + 1)
      (acc.1 ++ b.1, some b.2))
    ([], none)

/-- The events before the epoch loop of `main` (train.py:52-96): seed, the
two data loaders built from the generator of splits
`['train_{sess:02}', 'dev_{sess:02}']`, the model with
`n_classes = num_class[1]`, the step-budget computation and the
optimizer/scheduler. -/
def mainPre (args : Args) (sess : Nat) (num_class : String × Nat) (nBatches : Nat) :
    List Event :=
  [Event.setSeed args.seed,
   Event.buildLoader ("train_" ++ pad2 sess),
   Event.buildLoader ("dev_" ++ pad2 sess),
   Event.buildModel sess num_class.2,
   Event.computeSteps (totalStepsOf nBatches args) (warmupStepsOf nBatches args),
   Event.buildOptSched sess]

/-- `main(args, sess, num_class)` (train.py:51-109) as an event trace plus an
optional raised exception.  `num_class` is the `[label-set name, class
count]` pair from `NUM_CLASS_DICT`; `nBatches = len(trn_loader)` and
`evalFn` come from the environment.  `model_path` is only assigned inside the
epoch loop, so it is threaded as an `Option String`; the final
`torch.save(..., model_path + "Session" + str(sess) + '.pt')` raises
`NameError` when it was never assigned. -/
def main (args : Args) (sess : Nat) (num_class : String × Nat) (nBatches : Nat)
    (evalFn : Nat → ℚ × ℚ) : List Event × Option Err :=
  let pre := mainPre args sess num_class nBatches
  let loop := epochLoop args.epochs sess num_class.1 args.save_path evalFn
  match loop.2 with
  | none => (pre ++ loop.1, some Err.nameError)
  | some p =>
      (pre ++ loop.1 ++ [Event.saveCheckpoint sess (p ++ "Session" ++ toString sess ++ ".pt")],
       none)

/-- The session table `NUM_CLASS_DICT` (train.py:181-221): label-set name and
class count per session id. -/
def NUM_CLASS_DICT : Nat → Option (String × Nat)
  | 1 => some ("LABELDICT_B", 3)
  | 2 => some ("LABELDICT_B", 3)
  | 3 => some ("LABELDICT_C", 6)
  | 4 => some ("LABELDICT_C", 6)
  | 5 => some ("LABELDICT_D", 7)
  | 6 => some ("LABELDICT_D", 7)
  | 7 => some ("LABELDICT_E", 5)
  | 8 => some ("LABELDICT_C", 6)
  | 9 => some ("LABELDICT_C", 6)
  | 10 => some ("LABELDICT_D", 7)
  | 11 => some ("LABELDICT_F", 5)
  | 12 => some ("LABELDICT_G", 6)
  | 13 => some ("LABELDICT_D", 7)
  | 14 => some ("LABELDICT_H", 6)
  | 15 => some ("LABELDICT_D", 7)
  | 16 => some ("LABELDICT_D", 7)
  | 17 => some ("LABELDICT_I", 5)
  | 18 => some ("LABELDICT_Q", 5)
  | 19 => some ("LABELDICT_C", 6)
  | 20 => some ("LABELDICT_I", 5)
  | 21 => some ("LABELDICT_D", 7)
  | 22 => some ("LABELDICT_C", 6)
  | 23 => some ("LABELDICT_E", 5)
  | 24 => some ("LABELDICT_D", 7)
  | 25 => some ("LABELDICT_D", 7)
  | 26 => some ("LABELDICT_G", 6)
  | 27 => some ("LABELDICT_C", 6)
  | 28 => some ("LABELDICT_M", 5)
  | 29 => some ("LABELDICT_D", 7)
  | 30 => some ("LABELDICT_C", 6)
  | 31 => some ("LABELDICT_B", 3)
  | 32 => some ("LABELDICT_L", 4)
  | 33 => some ("LABELDICT_N", 5)
  | 34 => some ("LABELDICT_M", 5)
  | 35 => some ("LABELDICT_E", 5)
  | 36 => some ("LABELDICT_I", 5)
  | 37 => some ("LABELDICT_R", 5)
  | 38 => some ("LABELDICT_P", 4)
  | 39 => some ("LABELDICT_C", 6)
  | 40 => some ("LABELDICT_D", 7)
  | _ => none

/-- The label-set name configured for a session. -/
def sessionLabelName (s : Nat) : Option String :=
  (NUM_CLASS_DICT s).map Prod.fst

/-- `range(1, 41)`: the session ids the `__main__` loop iterates over
(train.py:223). -/
def sessionIds : List Nat := List.range' 1 40

/-- The `__main__` block from the modality check on (train.py:159-225):
raise `ValueError` when both modality flags are set; otherwise save the
config, seed, and run `main` for each session of `sessionIds`, stopping at
the first exception.  `nBatchesOf s` and `evalOf s` are the environment of
session `s`.

`sessionStep` is one iteration of the session loop (train.py:223-225): look
the session up in `NUM_CLASS_DICT` and run `main`; once an exception is
raised the loop body no longer executes. -/
def sessionStep (args : Args) (nBatchesOf : Nat → Nat) (evalOf : Nat → Nat → ℚ × ℚ)
    (acc : List Event × Option Err) (s : Nat) : List Event × Option Err :=
  match acc.2 with
  | some _ => acc
  | none =>
    match NUM_CLASS_DICT s with
    | none => (acc.1, some Err.keyError)
    | some nc =>
      let r := main args s nc (nBatchesOf s) (evalOf s)
      (acc.1 ++ r.1, r.2)

def runProgram (args : Args) (nBatchesOf : Nat → Nat) (evalOf : Nat → Nat → ℚ × ℚ) :
    List Event × Option Err :=
  if args.only_audio && args.only_text then ([], some Err.valueError)
  else
    sessionIds.foldl (sessionStep args nBatchesOf evalOf)
      ([Event.saveConfig, Event.setSeed args.seed], none)

/-- Events of one iteration of the batch loop of `train` (train.py:23-48). -/
inductive StepEvent where
  | modelTrain
  | zeroGrad
  | toDevice
  | forward
  | backward
  | clipGrad (c : ℚ)
  | optStep
  | schedStep
  | logStep
  deriving DecidableEq, Repr

/-- The trace of one training step (train.py:24-48): `model.train()`,
`model.zero_grad()`, move the batch to the device, the forward pass and loss,
`loss.backward()`, `clip_grad_norm_(model.parameters(), args.clip)`,
`optimizer.step()`, `scheduler.step()`, and the summary when the incremented
`args.global_step` is a multiple of `args.logging_steps`.  `gsAfter` is
`args.global_step` after the increment at train.py:42. -/
def stepEvents (args : Args) (gsAfter : Nat) : List StepEvent :=
  [StepEvent.modelTrain, StepEvent.zeroGrad, StepEvent.toDevice, StepEvent.forward,
   StepEvent.backward, StepEvent.clipGrad args.clip, StepEvent.optStep, StepEvent.schedStep]
  ++ (if gsAfter % args.logging_steps = 0 then [StepEvent.logStep] else [])

/-- `train(args, model, trn_loader, optimizer, scheduler)` (train.py:12-48) as
a step-event trace: the batch loop over the `nBatches` batches of
`trn_loader`, with `args.global_step = gs0` at entry. -/
def train (args : Args) (nBatches gs0 : Nat) : List StepEvent :=
  (List.range nBatches).flatMap (fun i => stepEvents args (gs0 + i + 1))

/-- A tensor: its shape and its flat row-major data, over ℚ. -/
structure Tensor where
  shape : List Nat
  data : List ℚ

/-- `t.squeeze(-1)`: remove the last dimension when it has size 1, otherwise
return the tensor unchanged. -/
def Tensor.squeezeLast (t : Tensor) : Tensor :=
  match t.shape.getLast? with
  | some 1 => ⟨t.shape.dropLast, t.data⟩
  | _ => t

/-- The integer conversion `.long()` applies elementwise: truncation toward
zero. -/
def ratTrunc (q : ℚ) : ℤ := if 0 ≤ q then ⌊q⌋ else ⌈q⌉

/-- An integer tensor, the result of `.long()`. -/
structure IntTensor where
  shape : List Nat
  data : List ℤ

/-- `t.long()`: elementwise conversion to integers. -/
def Tensor.long (t : Tensor) : IntTensor :=
  ⟨t.shape, t.data.map ratTrunc⟩

/-- `t.view(-1)`: flatten to one dimension. -/
def IntTensor.viewFlat (t : IntTensor) : IntTensor :=
  ⟨[t.data.length], t.data⟩

/-- A training batch as unpacked at train.py:29: audio tensor, audio mask,
text tensor, text mask, label, in this order. -/
structure Batch where
  audios : Tensor
  a_mask : Tensor
  texts : Tensor
  t_mask : Tensor
  labels : Tensor

/-- The label tensor as it reaches the loss: `labels.squeeze(-1).long()`
(train.py:30) and then `.view(-1)` inside the loss call (train.py:34). -/
def processedLabels (b : Batch) : IntTensor :=
  ((b.labels.squeezeLast).long).viewFlat

/-- The loss computation of one training step (train.py:33-34):
`logit, hidden = model(audios, texts, a_mask, t_mask)` and
`loss = loss_fct(logit, labels.view(-1))`. -/
def stepLoss (model : Tensor → Tensor → Tensor → Tensor → Tensor × Tensor)
    (loss_fct : Tensor → IntTensor → ℚ) (b : Batch) : ℚ :=
  let r := model b.audios b.texts b.a_mask b.t_mask
  loss_fct r.1 (processedLabels b)

/-- Spec-side per-session trace, written the way the specification describes
the pipeline: build the train and dev loaders, construct the model, construct
the optimizer and scheduler, then for each epoch training followed by
evaluation, and finally the session checkpoint. -/
def sessionSpecTrace (args : Args) (s : Nat) (nc : String × Nat) (nBatches : Nat)
    (evalFn : Nat → ℚ × ℚ) : List Event :=
  mainPre args s nc nBatches
    ++ (List.range args.epochs).flatMap
        (fun i => [Event.trainEpoch s (i + 1), Event.evalEpoch s (i + 1) nc.1])
    ++ [Event.saveCheckpoint s (checkpointFile args s evalFn)]

/-- Spec-side whole-program trace: the config save and seed, then the
per-session pipelines for sessions 1 to 40 in increasing order. -/
def programSpecTrace (args : Args) (nBatchesOf : Nat → Nat)
    (evalOf : Nat → Nat → ℚ × ℚ) : List Event :=
  [Event.saveConfig, Event.setSeed args.seed]
    ++ sessionIds.flatMap (fun s =>
        sessionSpecTrace args s ((NUM_CLASS_DICT s).getD ("", 0)) (nBatchesOf s) (evalOf s))

/-! ## Helper lemmas -/

theorem roundHalfEven_intCast (n : ℤ) : roundHalfEven (n : ℚ) = n := by
  unfold roundHalfEven
  rw [Int.floor_intCast, if_pos]
  norm_num

theorem roundHalfEven_le_floor_add_one (q : ℚ) : roundHalfEven q ≤ ⌊q⌋ + 1 := by
  simp only [roundHalfEven]
  split_ifs <;> omega

theorem roundHalfEven_le_int {x : ℚ} {t : ℤ} (h : x ≤ (t : ℚ)) :
    roundHalfEven x ≤ t := by
  have hf : ⌊x⌋ ≤ t := by
    have := Int.floor_le_floor h
    rwa [Int.floor_intCast] at this
  rcases lt_or_eq_of_le hf with hlt | heq
  · have := roundHalfEven_le_floor_add_one x
    omega
  · have hx1 : (t : ℚ) ≤ x := by
      rw [← heq]
      exact Int.floor_le x
    have hx : x = (t : ℚ) := le_antisymm h hx1
    rw [hx, roundHalfEven_intCast]

theorem totalStepsOf_eq (nBatches : Nat) (args : Args) :
    totalStepsOf nBatches args = (nBatches : ℤ) * (args.epochs : ℤ) := by
  unfold totalStepsOf
  have hcast : ((nBatches : ℚ) * (args.epochs : ℚ))
      = (((nBatches : ℤ) * (args.epochs : ℤ) : ℤ) : ℚ) := by
    push_cast
    ring
  rw [hcast, roundHalfEven_intCast]

theorem warmupStepsOf_le (nBatches : Nat) (args : Args)
    (h0 : 0 ≤ args.warmup_percent) (h1 : args.warmup_percent ≤ 1) :
    warmupStepsOf nBatches args ≤ totalStepsOf nBatches args := by
  unfold warmupStepsOf
  apply roundHalfEven_le_int
  have ht : (0 : ℚ) ≤ (totalStepsOf nBatches args : ℚ) := by
    rw [totalStepsOf_eq]
    positivity
  calc (totalStepsOf nBatches args : ℚ) * args.warmup_percent
      ≤ (totalStepsOf nBatches args : ℚ) * 1 := mul_le_mul_of_nonneg_left h1 ht
    _ = (totalStepsOf nBatches args : ℚ) := mul_one _

theorem fmt4_shape (q : ℚ) :
    ∃ a b, fmt4 q = a ++ "." ++ b ∧ b.length = 4 := by
  refine ⟨(if roundHalfEven (q * 10000) < 0 then "-" else "")
      ++ toString ((roundHalfEven (q * 10000)).natAbs / 10000),
    String.mk (fracDigits4 ((roundHalfEven (q * 10000)).natAbs % 10000)), ?_, ?_⟩
  · rfl
  · rw [String.length_mk]
    rfl

theorem epochLoop_succ (n sess : Nat) (labelName savePath : String)
    (evalFn : Nat → ℚ × ℚ) :
    epochLoop (n + 1) sess labelName savePath evalFn =
      ((epochLoop n sess labelName savePath evalFn).1
         ++ [Event.trainEpoch sess (n + 1), Event.evalEpoch sess (n + 1) labelName],
       some (osPathJoin savePath (modelNameOf (n + 1) (evalFn (n + 1)).1 (evalFn (n + 1)).2))) := by
  unfold epochLoop
  rw [List.range_succ, List.foldl_append]
  rfl

theorem epochLoop_eq (epochs sess : Nat) (labelName savePath : String)
    (evalFn : Nat → ℚ × ℚ) :
    epochLoop epochs sess labelName savePath evalFn =
      ((List.range epochs).flatMap
          (fun i => [Event.trainEpoch sess (i + 1), Event.evalEpoch sess (i + 1) labelName]),
       if epochs = 0 then none
       else some (osPathJoin savePath
           (modelNameOf epochs (evalFn epochs).1 (evalFn epochs).2))) := by
  induction epochs with
  | zero => rfl
  | succ n ih =>
    rw [epochLoop_succ, ih, List.range_succ, List.flatMap_append]
    simp

theorem main_eq (args : Args) (sess : Nat) (nc : String × Nat) (nBatches : Nat)
    (evalFn : Nat → ℚ × ℚ) (h : args.epochs ≠ 0) :
    main args sess nc nBatches evalFn =
      (sessionSpecTrace args sess nc nBatches evalFn, none) := by
  unfold main sessionSpecTrace checkpointFile
  rw [epochLoop_eq, if_neg h]

theorem main_epochs_zero (args : Args) (sess : Nat) (nc : String × Nat) (nBatches : Nat)
    (evalFn : Nat → ℚ × ℚ) (h : args.epochs = 0) :
    main args sess nc nBatches evalFn =
      (mainPre args sess nc nBatches, some Err.nameError) := by
  unfold main
  rw [epochLoop_eq, if_pos h, h]
  simp

theorem sessionStep_some (args : Args) (nBatchesOf : Nat → Nat)
    (evalOf : Nat → Nat → ℚ × ℚ) (tr : List Event) (e : Err) (s : Nat) :
    sessionStep args nBatchesOf evalOf (tr, some e) s = (tr, some e) := rfl

theorem sessionStep_ok (args : Args) (nBatchesOf : Nat → Nat)
    (evalOf : Nat → Nat → ℚ × ℚ) (tr : List Event) (s : Nat)
    (nc : String × Nat) (hnc : NUM_CLASS_DICT s = some nc) (h : args.epochs ≠ 0) :
    sessionStep args nBatchesOf evalOf (tr, none) s =
      (tr ++ sessionSpecTrace args s nc (nBatchesOf s) (evalOf s), none) := by
  unfold sessionStep
  simp only [hnc, main_eq args s nc (nBatchesOf s) (evalOf s) h]

theorem foldl_sessionStep_ok (args : Args) (nBatchesOf : Nat → Nat)
    (evalOf : Nat → Nat → ℚ × ℚ) (h : args.epochs ≠ 0) :
    ∀ (l : List Nat) (init : List Event),
      (∀ s ∈ l, (NUM_CLASS_DICT s).isSome = true) →
      l.foldl (sessionStep args nBatchesOf evalOf) (init, none) =
        (init ++ l.flatMap (fun s =>
            sessionSpecTrace args s ((NUM_CLASS_DICT s).getD ("", 0)) (nBatchesOf s) (evalOf s)),
         none) := by
  intro l
  induction l with
  | nil =>
    intro init _
    simp
  | cons s t ih =>
    intro init hl
    obtain ⟨nc, hnc⟩ := Option.isSome_iff_exists.mp (hl s (List.mem_cons_self s t))
    rw [List.foldl_cons, sessionStep_ok args nBatchesOf evalOf init s nc hnc h,
      ih _ (fun x hx => hl x (List.mem_cons_of_mem _ hx))]
    rw [List.flatMap_cons, hnc]
    simp [List.append_assoc]

theorem runProgram_eq (args : Args) (nBatchesOf : Nat → Nat)
    (evalOf : Nat → Nat → ℚ × ℚ) (h : args.epochs ≠ 0)
    (hm : ¬(args.only_audio = true ∧ args.only_text = true)) :
    runProgram args nBatchesOf evalOf = (programSpecTrace args nBatchesOf evalOf, none) := by
  unfold runProgram programSpecTrace
  rw [if_neg (by simpa using hm)]
  exact foldl_sessionStep_ok args nBatchesOf evalOf h sessionIds _ (by decide)

theorem mem_sessionIds (s : Nat) : s ∈ sessionIds ↔ 1 ≤ s ∧ s ≤ 40 := by
  rw [sessionIds, List.mem_range'_1]
  omega

theorem NUM_CLASS_DICT_isSome : ∀ s ∈ sessionIds, (NUM_CLASS_DICT s).isSome = true := by
  decide

theorem buildModel_mem_sessionSpec (args : Args) (a : Nat) (nc : String × Nat)
    (nb : Nat) (ev : Nat → ℚ × ℚ) (s n : Nat) :
    Event.buildModel s n ∈ sessionSpecTrace args a nc nb ev ↔ (s = a ∧ n = nc.2) := by
  unfold sessionSpecTrace mainPre
  simp

theorem evalEpoch_mem_sessionSpec (args : Args) (a : Nat) (nc : String × Nat)
    (nb : Nat) (ev : Nat → ℚ × ℚ) (s e : Nat) (ln : String) :
    Event.evalEpoch s e ln ∈ sessionSpecTrace args a nc nb ev ↔
      (∃ i, i < args.epochs ∧ s = a ∧ e = i + 1 ∧ ln = nc.1) := by
  unfold sessionSpecTrace mainPre
  simp

theorem buildModel_mem_spec (args : Args) (nBatchesOf : Nat → Nat)
    (evalOf : Nat → Nat → ℚ × ℚ) (s n : Nat) :
    Event.buildModel s n ∈ programSpecTrace args nBatchesOf evalOf ↔
      s ∈ sessionIds ∧ n = ((NUM_CLASS_DICT s).getD ("", 0)).2 := by
  unfold programSpecTrace
  simp only [List.mem_append, List.mem_cons, List.mem_flatMap, List.not_mem_nil, or_false,
    buildModel_mem_sessionSpec]
  constructor
  · rintro (h12 | ⟨a, ha, rfl, hn⟩)
    · exact absurd h12 (by simp)
    · exact ⟨ha, hn⟩
  · rintro ⟨hs, hn⟩
    exact Or.inr ⟨s, hs, rfl, hn⟩

theorem evalEpoch_mem_spec (args : Args) (nBatchesOf : Nat → Nat)
    (evalOf : Nat → Nat → ℚ × ℚ) (s e : Nat) (ln : String)
    (h : Event.evalEpoch s e ln ∈ programSpecTrace args nBatchesOf evalOf) :
    ln = ((NUM_CLASS_DICT s).getD ("", 0)).1 := by
  unfold programSpecTrace at h
  simp only [List.mem_append, List.mem_cons, List.mem_flatMap, List.not_mem_nil, or_false,
    evalEpoch_mem_sessionSpec] at h
  rcases h with h12 | ⟨a, ha, i, hi, rfl, he, hln⟩
  · exact absurd h12 (by simp)
  · exact hln

theorem sessionStep_fst_extends (args : Args) (nb : Nat → Nat)
    (ev : Nat → Nat → ℚ × ℚ) (acc : List Event × Option Err) (s : Nat) :
    ∃ t, (sessionStep args nb ev acc s).1 = acc.1 ++ t := by
  rcases acc with ⟨tr, e⟩
  cases e with
  | none =>
    cases hnc : NUM_CLASS_DICT s with
    | none => exact ⟨[], by simp [sessionStep, hnc]⟩
    | some nc => exact ⟨(main args s nc (nb s) (ev s)).1, by simp [sessionStep, hnc]⟩
  | some er => exact ⟨[], by simp [sessionStep]⟩

theorem foldl_sessionStep_fst_extends (args : Args) (nb : Nat → Nat)
    (ev : Nat → Nat → ℚ × ℚ) :
    ∀ (l : List Nat) (acc : List Event × Option Err),
      ∃ t, (l.foldl (sessionStep args nb ev) acc).1 = acc.1 ++ t := by
  intro l
  induction l with
  | nil => exact fun acc => ⟨[], by simp⟩
  | cons s r ih =>
    intro acc
    obtain ⟨t2, h2⟩ := ih (sessionStep args nb ev acc s)
    obtain ⟨t1, h1⟩ := sessionStep_fst_extends args nb ev acc s
    refine ⟨t1 ++ t2, ?_⟩
    rw [List.foldl_cons, h2, h1, List.append_assoc]

theorem main_snd_ne_valueError (args : Args) (sess : Nat) (nc : String × Nat)
    (nBatches : Nat) (evalFn : Nat → ℚ × ℚ) :
    (main args sess nc nBatches evalFn).2 ≠ some Err.valueError := by
  unfold main
  rcases hl : (epochLoop args.epochs sess nc.1 args.save_path evalFn).2 with _ | p
  · simp [hl]
  · simp [hl]

theorem sessionStep_snd_ne_valueError (args : Args) (nb : Nat → Nat)
    (ev : Nat → Nat → ℚ × ℚ) (acc : List Event × Option Err) (s : Nat)
    (h : acc.2 ≠ some Err.valueError) :
    (sessionStep args nb ev acc s).2 ≠ some Err.valueError := by
  rcases acc with ⟨tr, e⟩
  cases e with
  | none =>
    cases hnc : NUM_CLASS_DICT s with
    | none => simp [sessionStep, hnc]
    | some nc => simpa [sessionStep, hnc] using main_snd_ne_valueError args s nc (nb s) (ev s)
  | some er => exact h

theorem foldl_sessionStep_snd_ne_valueError (args : Args) (nb : Nat → Nat)
    (ev : Nat → Nat → ℚ × ℚ) :
    ∀ (l : List Nat) (acc : List Event × Option Err),
      acc.2 ≠ some Err.valueError →
      (l.foldl (sessionStep args nb ev) acc).2 ≠ some Err.valueError := by
  intro l
  induction l with
  | nil => exact fun acc h => h
  | cons s r ih =>
    intro acc h
    exact ih _ (sessionStep_snd_ne_valueError args nb ev acc s h)

/-! ## Concrete fixtures used by the witnesses -/

/-- The parser defaults of train.py:116-152 for the embedded fields, both
modality flags off. -/
def args0 : Args :=
  { only_audio := false, only_text := false, seed := 1, epochs := 5,
    clip := 4/5, warmup_percent := 1/10, logging_steps := 1, save_path := "./result" }

/-- The defaults with both modality flags set. -/
def argsBoth : Args :=
  { args0 with only_audio := true, only_text := true }

/-- The defaults with epochs set to 0. -/
def argsZeroEpochs : Args :=
  { args0 with epochs := 0 }

/-- A concrete environment: two training batches per session. -/
def nBatchesOf0 : Nat → Nat := fun _ => 2

/-- A concrete environment: fixed evaluation results. -/
def evalOf0 : Nat → Nat → ℚ × ℚ := fun _ _ => (1/2, 1/3)

/-- A concrete per-session evaluation function. -/
def evalFn0 : Nat → ℚ × ℚ := fun _ => (1/2, 1/3)

/-! ## Claims -/

/-- C1: for every run with at least one epoch and an admissible modality
choice, the per-session pipeline executes for each session id 1..40 in
increasing order, and within each session the steps occur in order: build
the train and dev loaders, construct the model, construct the
optimizer/scheduler, then for each epoch training followed by evaluation,
and finally the session checkpoint. -/
theorem C1_session_pipeline_order (args : Args) (nBatchesOf : Nat → Nat)
    (evalOf : Nat → Nat → ℚ × ℚ) (h : 1 ≤ args.epochs)
    (hm : ¬(args.only_audio = true ∧ args.only_text = true)) :
    (runProgram args nBatchesOf evalOf).1
      = [Event.saveConfig, Event.setSeed args.seed]
        ++ sessionIds.flatMap (fun s =>
            mainPre args s ((NUM_CLASS_DICT s).getD ("", 0)) (nBatchesOf s)
            ++ (List.range args.epochs).flatMap
                (fun i => [Event.trainEpoch s (i + 1),
                           Event.evalEpoch s (i + 1) ((NUM_CLASS_DICT s).getD ("", 0)).1])
            ++ [Event.saveCheckpoint s (checkpointFile args s (evalOf s))])
    ∧ (runProgram args nBatchesOf evalOf).2 = none
    ∧ sessionIds = List.range' 1 40
    ∧ List.Pairwise (· < ·) sessionIds := by
  have h0 : args.epochs ≠ 0 := by omega
  rw [runProgram_eq args nBatchesOf evalOf h0 hm]
  exact ⟨rfl, rfl, rfl, by decide⟩

/-- Witness for C1 at the parser defaults. -/
theorem C1_session_pipeline_order_witness :
    1 ≤ args0.epochs ∧ (runProgram args0 nBatchesOf0 evalOf0).2 = none :=
  ⟨by decide,
   (C1_session_pipeline_order args0 nBatchesOf0 evalOf0 (by decide) (by decide)).2.1⟩

/-- C2: for every session run with at least one epoch, exactly one
checkpoint event occurs, as the very last event after the final epoch, and
its file name records the final epoch number, that epoch's evaluation loss
and f1 in four-decimal format, and the session id. -/
theorem C2_checkpoint_name (args : Args) (sess : Nat) (nc : String × Nat)
    (nBatches : Nat) (evalFn : Nat → ℚ × ℚ) (h : 1 ≤ args.epochs) :
    (main args sess nc nBatches evalFn).2 = none
    ∧ (∃ pre,
        (main args sess nc nBatches evalFn).1
          = pre ++ [Event.saveCheckpoint sess
              (osPathJoin args.save_path
                  ("epoch" ++ toString args.epochs
                    ++ "-loss" ++ fmt4 (evalFn args.epochs).1
                    ++ "-f1" ++ fmt4 (evalFn args.epochs).2 ++ ".")
                ++ "Session" ++ toString sess ++ ".pt")]
          ∧ ∀ s f, Event.saveCheckpoint s f ∉ pre)
    ∧ (∃ a b, fmt4 (evalFn args.epochs).1 = a ++ "." ++ b ∧ b.length = 4)
    ∧ (∃ a b, fmt4 (evalFn args.epochs).2 = a ++ "." ++ b ∧ b.length = 4) := by
  have h0 : args.epochs ≠ 0 := by omega
  rw [main_eq args sess nc nBatches evalFn h0]
  refine ⟨rfl,
    ⟨mainPre args sess nc nBatches
      ++ (List.range args.epochs).flatMap
          (fun i => [Event.trainEpoch sess (i + 1), Event.evalEpoch sess (i + 1) nc.1]),
     ?_, ?_⟩,
    fmt4_shape _, fmt4_shape _⟩
  · unfold sessionSpecTrace checkpointFile modelNameOf
    simp [List.append_assoc]
  · intro s f
    simp [mainPre, List.mem_append, List.mem_flatMap]

/-- Witness for C2 at the parser defaults, session 3. -/
theorem C2_checkpoint_name_witness :
    1 ≤ args0.epochs ∧ (main args0 3 ("LABELDICT_C", 6) 2 evalFn0).2 = none :=
  ⟨by decide, (C2_checkpoint_name args0 3 ("LABELDICT_C", 6) 2 evalFn0 (by decide)).1⟩

/-- C3: for every session s among the iterated ids, the model of session s
is built with exactly the class count configured in NUM_CLASS_DICT, and
every evaluation of session s receives the label dictionary selected by s's
configured label-set name. -/
theorem C3_session_classes (args : Args) (nBatchesOf : Nat → Nat)
    (evalOf : Nat → Nat → ℚ × ℚ) (h : 1 ≤ args.epochs)
    (hm : ¬(args.only_audio = true ∧ args.only_text = true))
    (s : Nat) (hs : s ∈ sessionIds) :
    ∃ nm k, NUM_CLASS_DICT s = some (nm, k)
      ∧ (∀ n, Event.buildModel s n ∈ (runProgram args nBatchesOf evalOf).1 ↔ n = k)
      ∧ (∀ e ln, Event.evalEpoch s e ln ∈ (runProgram args nBatchesOf evalOf).1 → ln = nm) := by
  have h0 : args.epochs ≠ 0 := by omega
  obtain ⟨nc, hnc⟩ := Option.isSome_iff_exists.mp (NUM_CLASS_DICT_isSome s hs)
  refine ⟨nc.1, nc.2, by rw [hnc], ?_, ?_⟩
  · intro n
    rw [runProgram_eq args nBatchesOf evalOf h0 hm]
    have hmem := buildModel_mem_spec args nBatchesOf evalOf s n
    rw [hnc] at hmem
    simpa [hs] using hmem
  · intro e ln hmem
    rw [runProgram_eq args nBatchesOf evalOf h0 hm] at hmem
    have hx := evalEpoch_mem_spec args nBatchesOf evalOf s e ln hmem
    rw [hnc] at hx
    simpa using hx

/-- Witness for C3 at the parser defaults, session 5. -/
theorem C3_session_classes_witness :
    ∃ nm k, NUM_CLASS_DICT 5 = some (nm, k)
      ∧ (∀ n, Event.buildModel 5 n ∈ (runProgram args0 nBatchesOf0 evalOf0).1 ↔ n = k)
      ∧ (∀ e ln, Event.evalEpoch 5 e ln ∈ (runProgram args0 nBatchesOf0 evalOf0).1 → ln = nm) :=
  C3_session_classes args0 nBatchesOf0 evalOf0 (by decide) (by decide) 5 (by decide)

/-- C4 counterexample: sessions 1 and 2 are distinct yet configured with the
same label set (both LABELDICT_B), so their subsets of possible emotion
classes coincide; the claim that any two distinct sessions have different
subsets is false. -/
theorem C4_counterexample :
    (1 : Nat) ≠ 2 ∧ sessionLabelName 1 = sessionLabelName 2
      ∧ sessionLabelName 1 = some "LABELDICT_B" := by
  decide

/-- C4 amended: the 40 sessions draw their emotion-class subsets from only
14 distinct label sets, so distinct sessions may share the same subset. -/
theorem C4_amended_label_sets :
    ((sessionIds.filterMap sessionLabelName).dedup).length = 14
    ∧ ∃ s t, s ∈ sessionIds ∧ t ∈ sessionIds ∧ s ≠ t
        ∧ sessionLabelName s = sessionLabelName t := by
  exact ⟨by decide, 1, 2, by decide, by decide, by decide, by decide⟩

theorem train_step_block (args : Args) (nBatches gs0 i : Nat) (hi : i < nBatches) :
    ∃ pre post, train args nBatches gs0
      = pre ++ stepEvents args (gs0 + i + 1) ++ post := by
  obtain ⟨l1, l2, hsplit⟩ := List.append_of_mem (List.mem_range.mpr hi)
  refine ⟨l1.flatMap (fun j => stepEvents args (gs0 + j + 1)),
          l2.flatMap (fun j => stepEvents args (gs0 + j + 1)), ?_⟩
  rw [train, hsplit]
  simp [List.flatMap_append, List.flatMap_cons, List.append_assoc]

/-- C5: on every training step, the backward pass precedes the gradient
clipping with bound args.clip, which precedes the optimizer step, which
precedes the scheduler step; each of the four occurs exactly once in the
step. -/
theorem C5_step_order (args : Args) (nBatches gs0 i : Nat) (hi : i < nBatches) :
    (∃ pre post, train args nBatches gs0
        = pre ++ stepEvents args (gs0 + i + 1) ++ post)
    ∧ [StepEvent.backward, StepEvent.clipGrad args.clip, StepEvent.optStep,
        StepEvent.schedStep].Sublist (stepEvents args (gs0 + i + 1))
    ∧ (stepEvents args (gs0 + i + 1)).count StepEvent.backward = 1
    ∧ (stepEvents args (gs0 + i + 1)).count (StepEvent.clipGrad args.clip) = 1
    ∧ (stepEvents args (gs0 + i + 1)).count StepEvent.optStep = 1
    ∧ (stepEvents args (gs0 + i + 1)).count StepEvent.schedStep = 1 := by
  refine ⟨train_step_block args nBatches gs0 i hi, ?_, ?_, ?_, ?_, ?_⟩
  · unfold stepEvents
    refine List.Sublist.trans ?_ (List.sublist_append_left _ _)
    exact List.Sublist.cons _ (List.Sublist.cons _ (List.Sublist.cons _
      (List.Sublist.cons _ (List.Sublist.refl _))))
  all_goals
    unfold stepEvents
    rw [List.count_append]
    split
    · simp [List.count_cons]
    · simp [List.count_cons]

/-- Witness for C5 at the parser defaults, first step of a one-batch loader. -/
theorem C5_step_order_witness :
    (0 : Nat) < 1
    ∧ (stepEvents args0 (0 + 0 + 1)).count (StepEvent.clipGrad args0.clip) = 1 :=
  ⟨by decide, (C5_step_order args0 1 0 0 (by decide)).2.2.2.1⟩

/-- C6: before the optimizer and scheduler are constructed, main computes
the step budget as round(batches * epochs) and the warmup count as
round(total * warmup_percent); for every warmup_percent between 0 and 1 the
warmup count never exceeds the budget. -/
theorem C6_warmup_budget (args : Args) (sess : Nat) (nc : String × Nat)
    (nBatches : Nat) (evalFn : Nat → ℚ × ℚ)
    (h0 : 0 ≤ args.warmup_percent) (h1 : args.warmup_percent ≤ 1) :
    (∃ post, (main args sess nc nBatches evalFn).1
        = [Event.setSeed args.seed,
           Event.buildLoader ("train_" ++ pad2 sess),
           Event.buildLoader ("dev_" ++ pad2 sess),
           Event.buildModel sess nc.2]
          ++ Event.computeSteps (totalStepsOf nBatches args) (warmupStepsOf nBatches args)
            :: Event.buildOptSched sess :: post)
    ∧ totalStepsOf nBatches args = (nBatches : ℤ) * (args.epochs : ℤ)
    ∧ warmupStepsOf nBatches args ≤ totalStepsOf nBatches args := by
  refine ⟨?_, totalStepsOf_eq nBatches args, warmupStepsOf_le nBatches args h0 h1⟩
  unfold main
  rcases hl : (epochLoop args.epochs sess nc.1 args.save_path evalFn).2 with _ | pth
  · exact ⟨(epochLoop args.epochs sess nc.1 args.save_path evalFn).1,
      by simp [hl, mainPre]⟩
  · exact ⟨(epochLoop args.epochs sess nc.1 args.save_path evalFn).1
        ++ [Event.saveCheckpoint sess (pth ++ "Session" ++ toString sess ++ ".pt")],
      by simp [hl, mainPre]⟩

/-- Witness for C6 at the parser defaults (warmup_percent = 0.1). -/
theorem C6_warmup_budget_witness :
    (0 : ℚ) ≤ args0.warmup_percent ∧ args0.warmup_percent ≤ 1
    ∧ warmupStepsOf 2 args0 ≤ totalStepsOf 2 args0 :=
  ⟨by norm_num [args0], by norm_num [args0],
   (C6_warmup_budget args0 1 ("LABELDICT_B", 3) 2 evalFn0
      (by norm_num [args0]) (by norm_num [args0])).2.2⟩

/-- C7: the session ids iterated over are exactly the integers 1..40, and
every id in that range has an entry (label-set name and class count) in the
session table. -/
theorem C7_session_table (s : Nat) :
    (s ∈ sessionIds ↔ 1 ≤ s ∧ s ≤ 40)
    ∧ (s ∈ sessionIds → (NUM_CLASS_DICT s).isSome = true) :=
  ⟨mem_sessionIds s, fun h => NUM_CLASS_DICT_isSome s h⟩

/-- Witness for C7 at session 40. -/
theorem C7_session_table_witness : (NUM_CLASS_DICT 40).isSome = true :=
  (C7_session_table 40).2 (by decide)

/-- C8: a training batch is unpacked as (audios, a_mask, texts, t_mask,
labels) in this order; the labels are squeezed and flattened to a
one-dimensional integer vector, and the step loss is the loss function
applied to the model logits and that vector. -/
theorem C8_batch_unpack (model : Tensor → Tensor → Tensor → Tensor → Tensor × Tensor)
    (loss_fct : Tensor → IntTensor → ℚ) (b : Batch) :
    (processedLabels b).shape.length = 1
    ∧ (processedLabels b).data = b.labels.data.map ratTrunc
    ∧ stepLoss model loss_fct b
        = loss_fct (model b.audios b.texts b.a_mask b.t_mask).1 (processedLabels b) := by
  refine ⟨rfl, ?_, rfl⟩
  unfold processedLabels Tensor.squeezeLast Tensor.long IntTensor.viewFlat
  split
  · rfl
  · rfl

/-- C9: if both only_audio and only_text are given the program raises
ValueError before any data loading, model building or training (the trace
is empty); otherwise the check passes, execution proceeds to the config save
and the session loop, and ValueError is never raised. -/
theorem C9_modality_check (args : Args) (nBatchesOf : Nat → Nat)
    (evalOf : Nat → Nat → ℚ × ℚ) :
    (args.only_audio = true ∧ args.only_text = true →
      runProgram args nBatchesOf evalOf = ([], some Err.valueError))
    ∧ (¬(args.only_audio = true ∧ args.only_text = true) →
      (∃ tail, (runProgram args nBatchesOf evalOf).1
          = Event.saveConfig :: Event.setSeed args.seed :: tail)
      ∧ (runProgram args nBatchesOf evalOf).2 ≠ some Err.valueError) := by
  constructor
  · rintro ⟨h1, h2⟩
    unfold runProgram
    rw [if_pos (by simp [h1, h2])]
  · intro hm
    unfold runProgram
    rw [if_neg (by simpa using hm)]
    constructor
    · obtain ⟨t, ht⟩ := foldl_sessionStep_fst_extends args nBatchesOf evalOf sessionIds
        ([Event.saveConfig, Event.setSeed args.seed], none)
      exact ⟨t, by simpa using ht⟩
    · exact foldl_sessionStep_snd_ne_valueError args nBatchesOf evalOf sessionIds _ (by simp)

/-- Witness for C9: both flags raise ValueError; the default flags do not. -/
theorem C9_modality_check_witness :
    runProgram argsBoth nBatchesOf0 evalOf0 = ([], some Err.valueError)
    ∧ (runProgram args0 nBatchesOf0 evalOf0).2 ≠ some Err.valueError :=
  ⟨(C9_modality_check argsBoth nBatchesOf0 evalOf0).1 (by decide),
   ((C9_modality_check args0 nBatchesOf0 evalOf0).2 (by decide)).2⟩

/-- C10: saving the session checkpoint requires epochs ≥ 1: with epochs = 0
the final save references the never-assigned model_path, main raises
NameError and no checkpoint event occurs; with epochs ≥ 1 main succeeds and
the checkpoint is saved. -/
theorem C10_save_precondition (args : Args) (sess : Nat) (nc : String × Nat)
    (nBatches : Nat) (evalFn : Nat → ℚ × ℚ) :
    (args.epochs = 0 →
      (main args sess nc nBatches evalFn).2 = some Err.nameError
      ∧ ∀ f, Event.saveCheckpoint sess f ∉ (main args sess nc nBatches evalFn).1)
    ∧ (1 ≤ args.epochs →
      (main args sess nc nBatches evalFn).2 = none
      ∧ Event.saveCheckpoint sess (checkpointFile args sess evalFn)
          ∈ (main args sess nc nBatches evalFn).1) := by
  constructor
  · intro h
    rw [main_epochs_zero args sess nc nBatches evalFn h]
    refine ⟨rfl, ?_⟩
    intro f
    simp [mainPre]
  · intro h
    rw [main_eq args sess nc nBatches evalFn (by omega)]
    refine ⟨rfl, ?_⟩
    unfold sessionSpecTrace
    simp

/-- Witness for C10: epochs = 0 raises NameError and the default epochs = 5
saves the checkpoint. -/
theorem C10_save_precondition_witness :
    (main argsZeroEpochs 1 ("LABELDICT_B", 3) 2 evalFn0).2 = some Err.nameError
    ∧ (main args0 1 ("LABELDICT_B", 3) 2 evalFn0).2 = none :=
  ⟨((C10_save_precondition argsZeroEpochs 1 ("LABELDICT_B", 3) 2 evalFn0).1 (by decide)).1,
   ((C10_save_precondition args0 1 ("LABELDICT_B", 3) 2 evalFn0).2 (by decide)).1⟩

end TrainPy
